import Mathlib

/-!
Shallow embedding of the real-estate backend (src/main.py, src/schemas.py).

The repository's storage module (database.py: the connection handle `db`,
`get_documents`, `create_document`) is imported by main.py but is not part of
the given source files, so its behaviour is modelled from the spec's Storage
Access Layer contract (spec section 4.1): a collection is a list of raw
documents in store-native (insertion) order; fetching returns up to `limit`
documents matching the filter and never fails; creating a record can fail
(connection unavailable, write rejected), which we model with an outcome
oracle supplied as a parameter.
-/

/-- Values a stored document field can hold (the JSON/BSON fragment the
program manipulates: strings, numbers, booleans, lists of strings). -/
inductive Val where
  | str (s : String)
  | num (q : Rat)
  | bool (b : Bool)
  | strList (l : List String)
deriving DecidableEq

/-- Raw stored document, restricted to the 13 known Property fields: the
listing handler projects exactly these keys (d.get(k) for k in
Property.model_fields), so other keys such as the store-assigned id can
never influence the response. A `none` field is one that is absent (or null)
in the stored document. -/
structure RawDoc where
  title : Option Val
  description : Option Val
  address : Option Val
  city : Option Val
  state : Option Val
  country : Option Val
  price : Option Val
  bedrooms : Option Val
  bathrooms : Option Val
  area_sqft : Option Val
  images : Option Val
  featured : Option Val
  status : Option Val
deriving DecidableEq

/-- Property record (schemas.py, class Property): prices and bathroom counts
are Python floats, modelled as rationals; bedrooms and area as integers. -/
structure Property where
  title : String
  description : String
  address : String
  city : String
  state : String
  country : String
  price : Rat
  bedrooms : Int
  bathrooms : Rat
  area_sqft : Int
  images : List String
  featured : Bool
  status : String
deriving DecidableEq

/-- Inquiry record (schemas.py, class Inquiry); the email has already passed
the framework's EmailStr validation when the handler body runs. -/
structure Inquiry where
  name : String
  email : String
  phone : Option String
  message : String
  property_id : Option String
deriving DecidableEq

/-- First demo property (main.py, _demo_properties). -/
def demo1 : Property :=
  { title := "Dal Lake Waterfront Villa"
    description := "Elegant lakefront retreat with panoramic Himalayan views and private shikara access."
    address := "Boulevard Road, Dal Lake"
    city := "Srinagar"
    state := "Jammu & Kashmir"
    country := "India"
    price := 12500000
    bedrooms := 4
    bathrooms := (9 : Rat) / 2
    area_sqft := 3800
    images := ["https://images.unsplash.com/photo-1548013146-72479768bada?q=80&w=1600&auto=format&fit=crop",
               "https://images.unsplash.com/photo-1558981806-ec527fa84c39?q=80&w=1600&auto=format&fit=crop"]
    featured := true
    status := "For Sale" }

/-- Second demo property (main.py, _demo_properties). -/
def demo2 : Property :=
  { title := "Gulmarg Alpine Chalet"
    description := "Cozy ski-in chalet nestled among pines, minutes from gondola."
    address := "Near Gulmarg Gondola"
    city := "Gulmarg"
    state := "Jammu & Kashmir"
    country := "India"
    price := 8500000
    bedrooms := 3
    bathrooms := 3
    area_sqft := 2200
    images := ["https://images.unsplash.com/photo-1519681393784-d120267933ba?q=80&w=1600&auto=format&fit=crop",
               "https://images.unsplash.com/photo-1519682577862-22b62b24e493?q=80&w=1600&auto=format&fit=crop"]
    featured := true
    status := "For Sale" }

/-- Third demo property (main.py, _demo_properties); note it is NOT featured. -/
def demo3 : Property :=
  { title := "Lidder River Retreat"
    description := "Modern riverside home with sunlit interiors and cedar finishes."
    address := "Aru Valley Road"
    city := "Pahalgam"
    state := "Jammu & Kashmir"
    country := "India"
    price := 4200000
    bedrooms := 2
    bathrooms := 2
    area_sqft := 1400
    images := ["https://images.unsplash.com/photo-1501183638710-841dd1904471?q=80&w=1600&auto=format&fit=crop",
               "https://images.unsplash.com/photo-1521401292936-0a2129a30b22?q=80&w=1600&auto=format&fit=crop"]
    featured := false
    status := "For Sale" }

/-- The fixed demo list returned by _demo_properties (main.py lines 113-169),
in its fixed order. -/
def demo_properties : List Property := [demo1, demo2, demo3]

/-- Coerce a document field to a string (pydantic str field: only a present
string validates; an absent field, passed as None, is a validation error). -/
def coerceStr : Option Val → Option String
  | some (Val.str s) => some s
  | _ => none

/-- Coerce a document field to a float field value (pydantic float: any
stored number validates). -/
def coerceNum : Option Val → Option Rat
  | some (Val.num q) => some q
  | _ => none

/-- Coerce a document field to an int field value (pydantic int: a stored
number validates only when it is integral). -/
def coerceInt : Option Val → Option Int
  | some (Val.num q) => if q.den = 1 then some q.num else none
  | _ => none

/-- Coerce a document field to a boolean field value. -/
def coerceBool : Option Val → Option Bool
  | some (Val.bool b) => some b
  | _ => none

/-- Coerce a document field to a list of strings. -/
def coerceStrList : Option Val → Option (List String)
  | some (Val.strList l) => some l
  | _ => none

/-- Coercion of one raw stored document into the Property shape, as done at
main.py lines 90-93: the dict comprehension passes d.get(k) — hence None for
an absent field — for every known Property field, and the model validates
each field; the document coerces exactly when every projected field is
present with the right type, and the resulting Property is assembled from
the projected values. -/
def coerceProperty (d : RawDoc) : Option Property :=
  match coerceStr d.title, coerceStr d.description, coerceStr d.address,
        coerceStr d.city, coerceStr d.state, coerceStr d.country,
        coerceNum d.price, coerceInt d.bedrooms, coerceNum d.bathrooms,
        coerceInt d.area_sqft, coerceStrList d.images, coerceBool d.featured,
        coerceStr d.status with
  | some t, some de, some a, some ci, some st, some co, some pr, some be,
    some ba, some ar, some im, some fe, some sta =>
      some { title := t, description := de, address := a, city := ci,
             state := st, country := co, price := pr, bedrooms := be,
             bathrooms := ba, area_sqft := ar, images := im, featured := fe,
             status := sta }
  | _, _, _, _, _, _, _, _, _, _, _, _, _ => none

/-- Serialization loop of main.py lines 88-94: coerce each fetched document,
silently dropping any document that fails to coerce. -/
def serializeDocs (docs : List RawDoc) : List Property :=
  docs.filterMap coerceProperty

/-- The stored form of a Property inserted by seeding (create_document of
p.dict()): every schema field is present with its typed value. -/
def propToRawDoc (p : Property) : RawDoc :=
  { title := some (Val.str p.title)
    description := some (Val.str p.description)
    address := some (Val.str p.address)
    city := some (Val.str p.city)
    state := some (Val.str p.state)
    country := some (Val.str p.country)
    price := some (Val.num p.price)
    bedrooms := some (Val.num (p.bedrooms : Rat))
    bathrooms := some (Val.num p.bathrooms)
    area_sqft := some (Val.num (p.area_sqft : Rat))
    images := some (Val.strList p.images)
    featured := some (Val.bool p.featured)
    status := some (Val.str p.status) }

/-- The Mongo filter dict built by list_properties (main.py lines 71-75):
an optional anchored case-insensitive regex on city and an optional boolean
equality on featured. -/
structure Query where
  city : Option String
  featured : Option Bool
deriving DecidableEq

/-- Query construction of main.py lines 71-75. Python truthiness on the city
string means an empty string adds no city clause; featured is compared to
None, so both booleans add a clause. -/
def buildQuery (city : Option String) (featured : Option Bool) : Query :=
  { city := match city with
      | some c => if c = "" then none else some c
      | none => none
    featured := featured }

/-- Match of one pattern character of the interpolated regex against one
subject character under the i option: the metacharacter dot matches any
character; any other character matches up to ASCII case folding. -/
def regexCharMatchI (p c : Char) : Bool :=
  p = '.' || p.toLower = c.toLower

/-- Modelled from the spec: the document store's evaluation of the anchored
case-insensitive regex that list_properties interpolates (the pattern between
the anchors is the raw city parameter). The store itself is not among the
source files; the spec describes the filter as an exact-match/regex-capable
predicate over field values. The model covers the pattern fragment the code
can build from literal characters and the dot wildcard: the whole subject
must match the pattern character by character. -/
def anchoredRegexMatchI : List Char → List Char → Bool
  | [], [] => true
  | p :: ps, c :: cs => regexCharMatchI p c && anchoredRegexMatchI ps cs
  | _, _ => false

/-- Match of the city regex built at main.py line 73 against a stored string. -/
def cityRegexMatch (pat s : String) : Bool :=
  anchoredRegexMatchI pat.data s.data

/-- Modelled from the spec: whether a stored document matches the built
filter. A city clause matches only a present string field accepted by the
anchored case-insensitive regex; a featured clause matches only a present
boolean field equal to the requested value. -/
def matchesQuery (q : Query) (d : RawDoc) : Bool :=
  (match q.city with
    | none => true
    | some c =>
      match d.city with
      | some (Val.str s) => cityRegexMatch c s
      | _ => false) &&
  (match q.featured with
    | none => true
    | some b =>
      match d.featured with
      | some (Val.bool b2) => b == b2
      | _ => false)

/-- Modelled from the spec: fetchRecords (spec section 4.1) returns up to
`lim` records matching the filter, in store-native order, and never fails. -/
def get_documents (docs : List RawDoc) (q : Query) (lim : Nat) : List RawDoc :=
  (docs.filter (fun d => matchesQuery q d)).take lim

/-- The persisted state the handlers touch: the property and inquiry
collections. -/
structure Store where
  property : List RawDoc
  inquiry : List Inquiry
deriving DecidableEq

/-- Seeding loop of main.py lines 80-84: one create_document attempt per demo
property, each wrapped in its own try/except that swallows the failure. The
oracle `sorc` says whether the i-th insert succeeds; a successful insert
appends the record's stored form, a failed one changes nothing. -/
def seedLoop (sorc : Nat → Bool) : Nat → List Property → List RawDoc
  | _, [] => []
  | i, p :: ps => (if sorc i then [propToRawDoc p] else []) ++ seedLoop sorc (i + 1) ps

/-- HTTP error response (FastAPI HTTPException). -/
structure HTTPError where
  code : Nat
  detail : String
deriving DecidableEq

/-- Handler of GET /api/properties (main.py lines 65-94). `db` is the shared
connection handle: `none` is the unavailable sentinel, `some st` carries the
store contents. `sorc` is the outcome oracle for the seeding inserts. The
result is the HTTP response (success carrying the serialized list, or an
error) together with the store state after the call. -/
def list_properties (db : Option Store) (sorc : Nat → Bool)
    (city : Option String) (featured : Option Bool) :
    Except HTTPError (List Property) × Option Store :=
  match db with
  | none => (Except.ok demo_properties, none)
  | some st =>
    let q := buildQuery city featured
    let docs := get_documents st.property q 50
    if docs.isEmpty then
      let st2 : Store := { st with property := st.property ++ seedLoop sorc 0 demo_properties }
      (Except.ok (serializeDocs (get_documents st2.property q 50)), some st2)
    else
      (Except.ok (serializeDocs docs), some st)

/-- Handler of GET /api/properties/featured (main.py lines 96-98): it calls
list_properties with featured true and the city parameter left at its
default. -/
def featured_properties (db : Option Store) (sorc : Nat → Bool) :
    Except HTTPError (List Property) × Option Store :=
  list_properties db sorc none (some true)

/-- JSON bodies the inquiry endpoint can return on HTTP success. -/
inductive InquiryResponse where
  | accepted (persisted : Bool)
  | ok (id : String)
deriving DecidableEq

/-- Handler of POST /api/inquiries (main.py lines 100-109). `orc` is the
outcome of the create_document call when storage is available: the
store-assigned identifier, or the raised error's textual description. With
storage unavailable the handler acknowledges without touching any state;
with storage available a successful insert appends the record to the inquiry
collection and returns its identifier, and a raising insert is turned into
an HTTP 500 whose detail is the error text. -/
def create_inquiry (db : Option Store) (orc : Except String String)
    (payload : Inquiry) : Except HTTPError InquiryResponse × Option Store :=
  match db with
  | none => (Except.ok (InquiryResponse.accepted false), none)
  | some st =>
    match orc with
    | Except.ok i =>
        (Except.ok (InquiryResponse.ok i), some { st with inquiry := st.inquiry ++ [payload] })
    | Except.error e => (Except.error { code := 500, detail := e }, some st)

/-- C1: for every request to GET /api/properties with storage configured, the
handler never surfaces a storage error to the caller: whatever the seeding
inserts do (the fetch, per the storage contract, never fails), the endpoint
returns an HTTP success carrying a (possibly shorter) list of properties. -/
theorem C1_listing_never_errors (st : Store) (sorc : Nat → Bool)
    (city : Option String) (featured : Option Bool) :
    ∃ props st2, list_properties (some st) sorc city featured =
      (Except.ok props, st2) := by
  unfold list_properties
  dsimp only
  split
  · exact ⟨_, _, rfl⟩
  · exact ⟨_, _, rfl⟩

/-- C2: with storage unavailable, GET /api/properties returns exactly the 3
fixed demo properties in their fixed order, with the storage state untouched,
regardless of the city and featured query parameters. -/
theorem C2_unavailable_returns_demo (sorc : Nat → Bool)
    (city : Option String) (featured : Option Bool) :
    list_properties none sorc city featured =
      (Except.ok [demo1, demo2, demo3], none) := rfl

/-- C5: GET /api/properties/featured is, for every storage state, seeding
oracle and store contents, exactly GET /api/properties with featured true and
no city parameter: the two handlers are equal as functions. -/
theorem C5_featured_route_is_listing (db : Option Store) (sorc : Nat → Bool) :
    featured_properties db sorc = list_properties db sorc none (some true) := rfl

/-- C7: POST /api/inquiries with storage unavailable returns an HTTP success
with body status accepted and persisted false, for every payload and insert
oracle, and the storage state is unchanged (still the unavailable sentinel):
no write is performed. -/
theorem C7_inquiry_unavailable_accepted (orc : Except String String)
    (payload : Inquiry) :
    create_inquiry none orc payload =
      (Except.ok (InquiryResponse.accepted false), none) := rfl

/-- C8: with storage available, POST /api/inquiries appends the record to the
inquiry collection and returns status ok with the store-assigned identifier
when the insert succeeds; when the insert raises, it returns HTTP 500 whose
detail is the error's textual description and writes nothing; and across all
storage states, the endpoint errors exactly when storage is available and the
insert fails. -/
theorem C8_inquiry_available (st : Store) (orc : Except String String)
    (payload : Inquiry) :
    (∀ i, orc = Except.ok i →
      create_inquiry (some st) orc payload =
        (Except.ok (InquiryResponse.ok i),
         some { st with inquiry := st.inquiry ++ [payload] })) ∧
    (∀ e, orc = Except.error e →
      create_inquiry (some st) orc payload =
        (Except.error { code := 500, detail := e }, some st)) ∧
    (∀ db : Option Store,
      (∃ err st2, create_inquiry db orc payload = (Except.error err, st2)) ↔
        (db ≠ none ∧ ∃ e, orc = Except.error e)) := by
  refine ⟨?_, ?_, ?_⟩
  · rintro i rfl
    rfl
  · rintro e rfl
    rfl
  · intro db
    constructor
    · rintro ⟨err, st2, h⟩
      cases db with
      | none => exact absurd h (by simp [create_inquiry])
      | some st3 =>
        cases orc with
        | ok i => exact absurd h (by simp [create_inquiry])
        | error e => exact ⟨by simp, e, rfl⟩
    · rintro ⟨hdb, e, rfl⟩
      cases db with
      | none => exact absurd rfl hdb
      | some st3 => exact ⟨_, _, rfl⟩

/-- C10: with storage configured, a request whose city parameter is the empty
string builds no city clause at all, so it returns exactly what the same
request without a city parameter returns, including the same store state. -/
theorem C10_empty_city_is_no_filter (st : Store) (sorc : Nat → Bool)
    (featured : Option Bool) :
    list_properties (some st) sorc (some "") featured =
      list_properties (some st) sorc none featured := rfl

/-- Unfolding of the storage-configured branch of the listing handler: fetch
with the built filter and limit 50; on an empty result, run the seeding loop
and re-fetch with the same filter and limit; serialize whatever was fetched. -/
theorem list_properties_some (st : Store) (sorc : Nat → Bool)
    (city : Option String) (featured : Option Bool) :
    list_properties (some st) sorc city featured =
      if (get_documents st.property (buildQuery city featured) 50).isEmpty then
        (Except.ok (serializeDocs (get_documents
            (st.property ++ seedLoop sorc 0 demo_properties)
            (buildQuery city featured) 50)),
         some { st with property := st.property ++ seedLoop sorc 0 demo_properties })
      else
        (Except.ok (serializeDocs
            (get_documents st.property (buildQuery city featured) 50)),
         some st) := rfl

/-- C3: with storage configured, whenever the first fetch with the built
filter and limit 50 comes back empty, the handler runs the seeding loop
(one swallowed-failure insert attempt per demo record) and re-fetches with
the same filter and limit 50, whatever city/featured narrowing produced the
empty result; and when every insert succeeds the seeding loop appends
exactly the 3 demo records. -/
theorem C3_seeding_on_empty_fetch (st : Store) (sorc : Nat → Bool)
    (city : Option String) (featured : Option Bool)
    (hempty : get_documents st.property (buildQuery city featured) 50 = []) :
    list_properties (some st) sorc city featured =
      (Except.ok (serializeDocs (get_documents
          (st.property ++ seedLoop sorc 0 demo_properties)
          (buildQuery city featured) 50)),
       some { st with property := st.property ++ seedLoop sorc 0 demo_properties }) ∧
    seedLoop (fun _ => true) 0 demo_properties =
      [propToRawDoc demo1, propToRawDoc demo2, propToRawDoc demo3] := by
  refine ⟨?_, rfl⟩
  rw [list_properties_some, hempty]
  rfl

/-- C3 witness: on an available empty store with no query parameters and all
inserts succeeding, the hypothesis of the seeding theorem holds and its
conclusion is obtained at that input. -/
theorem C3_seeding_on_empty_fetch_witness :
    list_properties (some { property := [], inquiry := [] }) (fun _ => true)
        none none =
      (Except.ok (serializeDocs (get_documents
          (([] : List RawDoc) ++ seedLoop (fun _ => true) 0 demo_properties)
          (buildQuery none none) 50)),
       some { property := ([] : List RawDoc) ++ seedLoop (fun _ => true) 0 demo_properties,
              inquiry := [] }) ∧
    seedLoop (fun _ => true) 0 demo_properties =
      [propToRawDoc demo1, propToRawDoc demo2, propToRawDoc demo3] :=
  C3_seeding_on_empty_fetch { property := [], inquiry := [] } (fun _ => true)
    none none rfl

/-- Membership in a fetched slice implies the document matches the filter
(the fetch keeps only matching documents and then truncates). -/
theorem mem_get_documents_matches (L : List RawDoc) (q : Query) (n : Nat)
    (d : RawDoc) (hd : d ∈ get_documents L q n) : matchesQuery q d = true := by
  unfold get_documents at hd
  exact (List.mem_filter.mp (List.take_subset n _ hd)).2

/-- The sequence of documents the listing handler's serialization loop runs
over — main.py's docs variable after lines 77-85: the first fetch with the
built filter and limit 50, or, when that came back empty, the re-fetch after
the seeding loop with the same filter and limit. -/
def fetchedDocs (st : Store) (sorc : Nat → Bool)
    (city : Option String) (featured : Option Bool) : List RawDoc :=
  let q := buildQuery city featured
  let docs := get_documents st.property q 50
  if docs.isEmpty then
    get_documents (st.property ++ seedLoop sorc 0 demo_properties) q 50
  else
    docs

/-- C9: with storage configured, the response is exactly the coercion-wise
serialization of the documents the run actually fetched (the first fetch, or
the post-seeding re-fetch when the first came back empty): it is never
longer than that fetched sequence, every response element arises as the
successful coercion of one of those fetched documents, every fetched
document that coerces contributes its coercion, and the fetched documents
that fail to coerce are dropped while the endpoint still returns an HTTP
success. -/
theorem C9_response_serializes_fetch (st : Store) (sorc : Nat → Bool)
    (city : Option String) (featured : Option Bool) :
    (list_properties (some st) sorc city featured).1 =
      Except.ok (serializeDocs (fetchedDocs st sorc city featured)) ∧
    (serializeDocs (fetchedDocs st sorc city featured)).length ≤
      (fetchedDocs st sorc city featured).length ∧
    (∀ p ∈ serializeDocs (fetchedDocs st sorc city featured),
      ∃ d ∈ fetchedDocs st sorc city featured, coerceProperty d = some p) ∧
    (∀ d ∈ fetchedDocs st sorc city featured, ∀ p,
      coerceProperty d = some p →
        p ∈ serializeDocs (fetchedDocs st sorc city featured)) := by
  refine ⟨?_, List.length_filterMap_le _ _,
    fun p hp => List.mem_filterMap.mp hp,
    fun d hd p hcp => List.mem_filterMap.mpr ⟨d, hd, hcp⟩⟩
  rw [list_properties_some]
  simp only [fetchedDocs]
  by_cases h : (get_documents st.property (buildQuery city featured) 50).isEmpty
  · rw [if_pos h, if_pos h]
  · rw [if_neg h, if_neg h]

/-- A document matching a filter with a featured clause has a boolean
featured field equal to the requested value. -/
theorem matchesQuery_featured (q : Query) (d : RawDoc) (b : Bool)
    (hq : q.featured = some b) (h : matchesQuery q d = true) :
    d.featured = some (Val.bool b) := by
  unfold matchesQuery at h
  rw [hq] at h
  simp only [Bool.and_eq_true] at h
  obtain ⟨-, h2⟩ := h
  cases hd : d.featured with
  | none => rw [hd] at h2; simp at h2
  | some v =>
    cases v with
    | str s => rw [hd] at h2; simp at h2
    | num q2 => rw [hd] at h2; simp at h2
    | strList l => rw [hd] at h2; simp at h2
    | bool b2 =>
      rw [hd] at h2
      simp only [beq_iff_eq] at h2
      rw [h2]

/-- A document matching a filter with a city clause has a string city field
accepted by the interpolated regex. -/
theorem matchesQuery_city (q : Query) (d : RawDoc) (c : String)
    (hq : q.city = some c) (h : matchesQuery q d = true) :
    ∃ s, d.city = some (Val.str s) ∧ cityRegexMatch c s = true := by
  unfold matchesQuery at h
  rw [hq] at h
  simp only [Bool.and_eq_true] at h
  obtain ⟨h1, -⟩ := h
  cases hd : d.city with
  | none => rw [hd] at h1; simp at h1
  | some v =>
    cases v with
    | num q2 => rw [hd] at h1; simp at h1
    | bool b2 => rw [hd] at h1; simp at h1
    | strList l => rw [hd] at h1; simp at h1
    | str s =>
      rw [hd] at h1
      exact ⟨s, rfl, h1⟩

/-- Every field of a successfully coerced Property is the coercion of the
corresponding projected document field. -/
theorem coerceProperty_fields (d : RawDoc) (p : Property)
    (h : coerceProperty d = some p) :
    coerceStr d.city = some p.city ∧ coerceBool d.featured = some p.featured := by
  unfold coerceProperty at h
  split at h
  · injection h with h2
    subst h2
    constructor <;> assumption
  · exact Option.noConfusion h

/-- Every property serialized out of a fetch whose filter carries a featured
clause has that featured value. -/
theorem featured_of_mem_serialized (L : List RawDoc) (q : Query) (b : Bool)
    (n : Nat) (p : Property) (hq : q.featured = some b)
    (hp : p ∈ serializeDocs (get_documents L q n)) : p.featured = b := by
  obtain ⟨d, hd, hcoerce⟩ := List.mem_filterMap.mp hp
  have hfield := matchesQuery_featured q d b hq
    (mem_get_documents_matches L q n d hd)
  have hbool := (coerceProperty_fields d p hcoerce).2
  rw [hfield] at hbool
  simp only [coerceBool, Option.some.injEq] at hbool
  exact hbool.symm

/-- Every property serialized out of a fetch whose filter carries a city
clause has a city accepted by the interpolated regex. -/
theorem city_of_mem_serialized (L : List RawDoc) (q : Query) (c : String)
    (n : Nat) (p : Property) (hq : q.city = some c)
    (hp : p ∈ serializeDocs (get_documents L q n)) :
    cityRegexMatch c p.city = true := by
  obtain ⟨d, hd, hcoerce⟩ := List.mem_filterMap.mp hp
  obtain ⟨s, hds, hmatch⟩ := matchesQuery_city q d c hq
    (mem_get_documents_matches L q n d hd)
  have hstr := (coerceProperty_fields d p hcoerce).1
  rw [hds] at hstr
  simp only [coerceStr, Option.some.injEq] at hstr
  rw [← hstr]
  exact hmatch

/-- C4 counterexample: with storage unavailable, GET /api/properties with
featured true returns the unfiltered demo list, whose third record is not
featured — so the claim fails in that storage state. -/
theorem C4_counterexample_unavailable_ignores_featured :
    (list_properties none (fun _ => true) none (some true)).1 =
      Except.ok [demo1, demo2, demo3] ∧
    demo3 ∈ [demo1, demo2, demo3] ∧ demo3.featured = false :=
  ⟨rfl, List.Mem.tail _ (List.Mem.tail _ (List.Mem.head _)), rfl⟩

/-- C4 (amended): with storage configured, every record in the response to
GET /api/properties with featured true has its featured field true, for
every store contents, seeding outcome and city parameter; with storage
unavailable the demo list is returned unfiltered and may contain a
non-featured record. -/
theorem C4_featured_filter_sound (st : Store) (sorc : Nat → Bool)
    (city : Option String) (props : List Property) (p : Property)
    (hres : (list_properties (some st) sorc city (some true)).1 =
      Except.ok props)
    (hp : p ∈ props) : p.featured = true := by
  have hq : (buildQuery city (some true)).featured = some true := rfl
  rw [list_properties_some] at hres
  by_cases h : (get_documents st.property (buildQuery city (some true)) 50).isEmpty
  · rw [if_pos h] at hres
    simp only [Except.ok.injEq] at hres
    subst hres
    exact featured_of_mem_serialized _ _ _ _ p hq hp
  · rw [if_neg h] at hres
    simp only [Except.ok.injEq] at hres
    subst hres
    exact featured_of_mem_serialized _ _ _ _ p hq hp

/-- C4 witness: a store holding the stored form of the first demo record
answers the featured query with that record, and the theorem yields its
featured flag at that concrete input. -/
theorem C4_featured_filter_sound_witness : demo1.featured = true :=
  C4_featured_filter_sound { property := [propToRawDoc demo1], inquiry := [] }
    (fun _ => true) none [demo1] demo1 rfl (List.Mem.head _)

/-- Characters the regex engine treats as syntax: a city parameter containing
one of these is interpolated into the pattern unescaped at main.py line 73.
The braces are written by code point. -/
def regexMetaChars : List Char :=
  ['.', '^', '$', '*', '+', '?', '(', ')', '[', ']', '|', '\\',
   Char.ofNat 123, Char.ofNat 125]

/-- Case-insensitive equality of two strings (character-wise case folding):
the spec's notion of a city match. -/
def eqCaseInsensitive (a b : String) : Prop :=
  a.data.map Char.toLower = b.data.map Char.toLower

instance (a b : String) : Decidable (eqCaseInsensitive a b) :=
  inferInstanceAs (Decidable (a.data.map Char.toLower = b.data.map Char.toLower))

/-- On a pattern made of literal characters (no dot wildcard), the anchored
case-insensitive match is exactly character-wise case-folded equality. -/
theorem anchoredRegexMatchI_literal :
    ∀ (pat s : List Char), (∀ ch ∈ pat, ch ≠ '.') →
      (anchoredRegexMatchI pat s = true ↔
        s.map Char.toLower = pat.map Char.toLower)
  | [], [] => fun _ => by simp [anchoredRegexMatchI]
  | [], _ :: _ => fun _ => by simp [anchoredRegexMatchI]
  | _ :: _, [] => fun _ => by simp [anchoredRegexMatchI]
  | p :: ps, c :: cs => fun hlit => by
    have hp : p ≠ '.' := hlit p (List.mem_cons_self _ _)
    have ih := anchoredRegexMatchI_literal ps cs
      (fun ch hch => hlit ch (List.mem_cons_of_mem _ hch))
    simp only [anchoredRegexMatchI, Bool.and_eq_true, regexCharMatchI,
      Bool.or_eq_true, decide_eq_true_eq, List.map_cons, List.cons.injEq, ih]
    constructor
    · rintro ⟨hpc | hpc, h2⟩
      · exact absurd hpc hp
      · exact ⟨hpc.symm, h2⟩
    · rintro ⟨hcp, h2⟩
      exact ⟨Or.inr hcp.symm, h2⟩

/-- For a city parameter free of regex metacharacters, the interpolated
anchored regex accepts exactly the strings equal to it case-insensitively. -/
theorem cityRegexMatch_literal (c s : String)
    (hlit : ∀ ch ∈ c.data, ch ∉ regexMetaChars) :
    cityRegexMatch c s = true ↔ eqCaseInsensitive s c := by
  unfold cityRegexMatch eqCaseInsensitive
  exact anchoredRegexMatchI_literal c.data s.data
    (fun ch hch hdot => hlit ch hch (by rw [hdot]; decide))

/-- Stored record identical to the first demo record except that its city
differs from the query parameter of the counterexample at one character. -/
def cexProp : Property := { demo1 with city := "SrinXgar" }

/-- C6 counterexample: the city parameter is interpolated into the regex
unescaped, so the pattern built for city parameter Srin.gar (with a dot
metacharacter) also matches the stored city SrinXgar: a record whose city is
NOT case-insensitively equal to the parameter is returned. -/
theorem C6_counterexample_unescaped_metachar :
    (list_properties (some { property := [propToRawDoc cexProp], inquiry := [] })
        (fun _ => true) (some "Srin.gar") none).1 = Except.ok [cexProp] ∧
    ¬ eqCaseInsensitive cexProp.city "Srin.gar" := by
  constructor
  · rfl
  · unfold eqCaseInsensitive
    decide

/-- C6 (amended): for every non-empty city parameter containing no regex
metacharacter and storage configured, the built filter matches exactly the
stored documents whose city field is a string equal to the parameter
case-insensitively; in particular every record the endpoint returns for that
parameter has a city equal to it case-insensitively. For a parameter
containing regex metacharacters the unescaped interpolation can match other
city values. -/
theorem C6_city_filter_exact (c : String) (hne : c ≠ "")
    (hlit : ∀ ch ∈ c.data, ch ∉ regexMetaChars) :
    (∀ d : RawDoc,
      matchesQuery (buildQuery (some c) none) d = true ↔
        ∃ s, d.city = some (Val.str s) ∧ eqCaseInsensitive s c) ∧
    (∀ (st : Store) (sorc : Nat → Bool) (featured : Option Bool)
        (props : List Property) (p : Property),
      (list_properties (some st) sorc (some c) featured).1 = Except.ok props →
      p ∈ props → eqCaseInsensitive p.city c) := by
  have hq : ∀ featured : Option Bool,
      (buildQuery (some c) featured).city = some c := by
    intro featured
    simp [buildQuery, hne]
  constructor
  · intro d
    constructor
    · intro h
      obtain ⟨s, hds, hmatch⟩ := matchesQuery_city _ d c (hq none) h
      exact ⟨s, hds, (cityRegexMatch_literal c s hlit).mp hmatch⟩
    · rintro ⟨s, hds, heq⟩
      unfold matchesQuery
      rw [hq none, hds]
      simp only [Bool.and_eq_true]
      exact ⟨(cityRegexMatch_literal c s hlit).mpr heq, rfl⟩
  · intro st sorc featured props p hres hp
    rw [list_properties_some] at hres
    by_cases h :
        (get_documents st.property (buildQuery (some c) featured) 50).isEmpty
    · rw [if_pos h] at hres
      simp only [Except.ok.injEq] at hres
      subst hres
      exact (cityRegexMatch_literal c p.city hlit).mp
        (city_of_mem_serialized _ _ c 50 p (hq featured) hp)
    · rw [if_neg h] at hres
      simp only [Except.ok.injEq] at hres
      subst hres
      exact (cityRegexMatch_literal c p.city hlit).mp
        (city_of_mem_serialized _ _ c 50 p (hq featured) hp)

/-- C6 witness: the amended theorem instantiated at the metacharacter-free
city parameter Srinagar, with both hypotheses discharged by evaluation. -/
theorem C6_city_filter_exact_witness :
    (∀ d : RawDoc,
      matchesQuery (buildQuery (some "Srinagar") none) d = true ↔
        ∃ s, d.city = some (Val.str s) ∧ eqCaseInsensitive s "Srinagar") ∧
    (∀ (st : Store) (sorc : Nat → Bool) (featured : Option Bool)
        (props : List Property) (p : Property),
      (list_properties (some st) sorc (some "Srinagar") featured).1 =
        Except.ok props →
      p ∈ props → eqCaseInsensitive p.city "Srinagar") :=
  C6_city_filter_exact "Srinagar" (by decide) (by decide)
